import Mathlib

set_option maxRecDepth 100000

/-!
Verification development for the ecommerce chat assistant backend.

The definitions below are a shallow embedding of the Python sources:
`backend/agent/router.py`, `backend/guardrails.py`, the tool modules under
`backend/tools/`, `backend/agent/orchestrator.py` and `backend/app.py`.

Modelling conventions, used uniformly:
* Python strings are Lean `String`s; `str.lower` / `str.strip` / substring
  containment (`in`) are modelled character-exactly on `String.data`.
* Python `dict` results of the tools become structures whose fields are the
  dict's keys; a key that can be absent or `None` is an `Option`.
* Dates are represented by their proleptic Gregorian ordinal
  (like Python `date.toordinal`): `datetime` subtraction `(a - b).days`
  becomes integer subtraction of ordinals, and a sentence naming a date is
  represented by that date's ordinal.
* The JSON record stores (`orders.json`, `products.json`) are passed as
  explicit list parameters.
* The reasoning-model client (Gemini) is an external service; it is
  modelled as a stub `Nat → ModelResponse` giving the model's reply on each
  turn of the agentic loop, and the RAG answerer as a `String → RagResult`
  parameter.
-/

namespace Ecom

/-! ## Python string primitives -/

/-- The whitespace characters stripped by Python `str.strip()`. -/
def isPySpace (c : Char) : Bool :=
  c == ' ' || c == '\t' || c == '\n' || c == '\r' || c == '\x0b' || c == '\x0c'

/-- Embeds `str.lower()` on the character list. -/
def lowerChars (l : List Char) : List Char := l.map Char.toLower

/-- Embeds `str.strip()` on the character list: drop leading and trailing whitespace. -/
def stripChars (l : List Char) : List Char :=
  (((l.dropWhile isPySpace).reverse.dropWhile isPySpace)).reverse

/-- Embeds `str.lower()`. -/
def pyLower (s : String) : String := String.mk (lowerChars s.data)

/-- Embeds `str.upper()`. -/
def pyUpper (s : String) : String := String.mk (s.data.map Char.toUpper)

/-- Embeds `str.strip()`. -/
def pyStrip (s : String) : String := String.mk (stripChars s.data)

/-- Substring test `pat in s` (Python `in` on strings), on char lists:
the pattern is an infix of the text. -/
def containsSub (pat : List Char) : List Char → Bool
  | [] => pat.isEmpty
  | c :: t => pat.isPrefixOf (c :: t) || containsSub pat t

/-- Python `pat in s`. -/
def strContains (s pat : String) : Bool := containsSub pat.data s.data

/-- Python `any(kw in s for kw in kws)`. -/
def containsAny (s : String) (kws : List String) : Bool :=
  kws.any (fun kw => strContains s kw)

/-- Python `s.find(pat)`: index of the leftmost occurrence, `none` if absent
(Python returns `-1`; callers here only use it after an `in` test). -/
def findIdx (pat : List Char) : List Char → Option Nat
  | [] => if pat.isEmpty then some 0 else none
  | c :: t =>
    if pat.isPrefixOf (c :: t) then some 0
    else (findIdx pat t).map (· + 1)

/-- Numeric value of a digit string. -/
def digitsToNat (l : List Char) : Nat :=
  l.foldl (fun n c => n * 10 + (c.toNat - 48)) 0

/-- First maximal digit run in the list (the first group found by
`re.findall(r"\d+", s)`), as a number. -/
def firstNum : List Char → Option Nat
  | [] => none
  | c :: t =>
    if c.isDigit then some (digitsToNat (c :: t.takeWhile Char.isDigit))
    else firstNum t

/-- Python `"\n".join`-style concatenation with a separator. -/
def joinWith (sep : String) : List String → String
  | [] => ""
  | [x] => x
  | x :: xs => x ++ sep ++ joinWith sep xs

/-- Render an optional string the way a Python f-string renders a possibly
`None` value. -/
def pyStr (o : Option String) : String :=
  match o with
  | some s => s
  | none => "None"

/-! ## The order-id pattern `\bORD\d+\b` (router.py `ORDER_ID_PATTERN`)

A word character for `\b` is an ASCII letter, digit or underscore. A match
anchored at a position is `ORD` (case-insensitive) followed by a maximal
nonempty digit run whose next character, if any, is not a word character;
`re.search` takes the leftmost such position whose preceding character, if
any, is not a word character. -/

def isWordChar (c : Char) : Bool := c.isAlpha || c.isDigit || c == '_'

/-- Attempt to match `ORD\d+\b` at the head of the list; on success return
the matched text already uppercased (as `extract_order_id` does with
`.group(0).upper()`). -/
def ordMatchFrom : List Char → Option (List Char)
  | o :: r :: d :: rest =>
    if o.toLower == 'o' && r.toLower == 'r' && d.toLower == 'd' then
      let ds := rest.takeWhile Char.isDigit
      let after := rest.dropWhile Char.isDigit
      if ds.isEmpty then none
      else
        match after with
        | [] => some ('O' :: 'R' :: 'D' :: ds)
        | a :: _ => if isWordChar a then none else some ('O' :: 'R' :: 'D' :: ds)
    else none
  | _ => none

/-- Left-to-right scan for the first `\bORD\d+\b` match; `prevW` records
whether the previous character was a word character (false at the start of
the string). -/
def scanOrd : Bool → List Char → Option (List Char)
  | _, [] => none
  | prevW, c :: rest =>
    match prevW, ordMatchFrom (c :: rest) with
    | false, some m => some m
    | _, _ => scanOrd (isWordChar c) rest

/-! ## router.py -/

/-- Embeds `extract_order_id`: search for `ORDER_ID_PATTERN`, uppercase the match. -/
def extract_order_id (text : String) : Option String :=
  (scanOrd false text.data).map (fun l => String.mk l)

/-- Embeds `extract_max_price`: scan for a price-limiting keyword and read the
first number in the 30-character window after it.  (Python builds a
`float`; the values that occur are digit runs, represented as `Nat`.) -/
def extract_max_price (text : String) : Option Nat :=
  let lowered := lowerChars text.data
  (["under", "below", "less than", "<", "upto", "up to"] : List String).findSome?
    (fun kw =>
      match findIdx kw.data lowered with
      | none => none
      | some idx => firstNum ((lowered.drop idx).take 30))

/-- Embeds `detect_category`. -/
def detect_category (text : String) : Option String :=
  let lowered := pyLower text
  if strContains lowered "laptop" || strContains lowered "laptops" then some "laptop"
  else if strContains lowered "headphone" || strContains lowered "headphones"
      || strContains lowered "headset" then some "headphones"
  else if strContains lowered "mouse" || strContains lowered "mice" then some "mouse"
  else if strContains lowered "keyboard" || strContains lowered "key board" then some "keyboard"
  else if strContains lowered "phone" || strContains lowered "mobile"
      || strContains lowered "smartphone" then some "phone"
  else none

/-- Embeds `is_chitchat`. -/
def is_chitchat (lowered : String) : Bool :=
  ([" hi", "hello", " hey", "how are you", "how r you", "who are you",
    "what can you do", "thanks", "thank you", "good morning",
    "good evening"] : List String).any (fun p => strContains lowered p)

/-- Embeds `is_troubleshooting_issue`. -/
def is_troubleshooting_issue (lowered : String) : Bool :=
  (["not turning on", "won\x27t turn on", "does not turn on",
    "doesn\x27t turn on", "won\x27t power on", "no sound", "not working",
    "not working properly", "stopped working", "stop working", "broken",
    "issue with", "problem with", "overheating"] : List String).any
    (fun p => strContains lowered p)

/-- The result dict of `detect_intent`. -/
structure RouterResult where
  intent : String
  order_id : Option String
  category : Option String
  max_price : Option Nat
deriving DecidableEq

def SEARCH_VERBS : List String :=
  ["suggest", "recommend", "show me", "find", "looking for", "under",
   "below", "tell me about", "have in store", "available", "all the",
   "sell", "you sell", "you guys sell", "best", "good for", "suitable for",
   "ideal for"]

def CATALOGUE_PHRASES : List String :=
  ["catalog", "catalogue", "product catalog", "product catalogue",
   "what all you offer", "what all u offer", "what do you offer",
   "what do u offer", "what all you guys offer", "what all u guys offer",
   "what all you have", "what all u have"]

def SELL_PHRASES : List String :=
  ["products do you sell", "what all products", "what products you sell",
   "what all products u guys sell", "what all products do you have",
   "you sell products", "sell products", "all products"]

/-- Condition of step 2 of the cascade (date query). -/
def is_date_query (lowered : String) : Bool :=
  strContains lowered "date today" || strContains lowered "today\x27s date"
    || strContains lowered "what day is it"

/-- Condition of step 3 of the cascade (order status). -/
def is_order_status_query (lowered : String) (order_id : Option String) : Bool :=
  strContains lowered "where is my order" || strContains lowered "track my order"
    || (strContains lowered "order" && strContains lowered "status")
    || (strContains lowered "order" && strContains lowered "tracking")
    || (order_id.isSome && strContains lowered "status")

/-- Condition of step 4 of the cascade (policy questions). -/
def is_policy_query (lowered : String) : Bool :=
  strContains lowered "return policy" || strContains lowered "shipping policy"
    || strContains lowered "refund policy" || strContains lowered "policy"

/-- Condition of step 5 of the cascade (refund). -/
def is_refund_query (lowered : String) : Bool :=
  containsAny lowered ["refund", "money back", "get my money", "refund status"]

/-- Condition of step 6 of the cascade (return / exchange). -/
def is_return_query (lowered : String) : Bool :=
  containsAny lowered ["return", "exchange", "replace", "replacement"]

/-- Condition of step 7 of the cascade (warranty). -/
def is_warranty_query (lowered : String) : Bool :=
  strContains lowered "warranty" || strContains lowered "guarantee"

/-- Condition of step 8, case A (category present plus a search verb). -/
def has_category_and_search_verb (lowered : String) (category : Option String) : Bool :=
  category.isSome && SEARCH_VERBS.any (fun kw => strContains lowered kw)

/-- Condition of step 8, case B (explicit catalogue questions). -/
def is_catalogue_query (lowered : String) : Bool :=
  containsAny lowered CATALOGUE_PHRASES

/-- Condition of step 8, case C (asking about products we sell). -/
def is_sell_products_query (lowered : String) : Bool :=
  containsAny lowered SELL_PHRASES
    || (strContains lowered "products" && strContains lowered "sell")

/-- The slot triple computed by `detect_intent` on the stripped message
(source lines `order_id = extract_order_id(text)` etc.; the troubleshooting
branch computes exactly the same three values). -/
def router_slots (text : String) : Option String × Option String × Option Nat :=
  (extract_order_id text, detect_category text, extract_max_price text)

/-- Embeds `detect_intent`: the fixed-priority rule cascade of router.py.
`text` and `lowered` of the source (`user_message.strip()` and its
lowercase) are inlined as `pyStrip user_message` / `pyLower (pyStrip
user_message)`; each `is_*` predicate is the inline condition of the
corresponding `if`/`elif` block of the source, and `router_slots` is the
slot block. -/
def detect_intent (user_message : String) : RouterResult :=
  -- 0) troubleshooting first
  if is_troubleshooting_issue (pyLower (pyStrip user_message)) then
    { intent := "troubleshooting",
      order_id := (router_slots (pyStrip user_message)).1,
      category := (router_slots (pyStrip user_message)).2.1,
      max_price := (router_slots (pyStrip user_message)).2.2 }
  -- 1) chitchat
  else if is_chitchat (pyLower (pyStrip user_message)) then
    { intent := "chitchat", order_id := none, category := none, max_price := none }
  -- 2) date query
  else if is_date_query (pyLower (pyStrip user_message)) then
    { intent := "date_query", order_id := none, category := none, max_price := none }
  -- 3) order status
  else if is_order_status_query (pyLower (pyStrip user_message))
      (router_slots (pyStrip user_message)).1 then
    { intent := "order_status",
      order_id := (router_slots (pyStrip user_message)).1,
      category := (router_slots (pyStrip user_message)).2.1,
      max_price := (router_slots (pyStrip user_message)).2.2 }
  -- 4) policy questions
  else if is_policy_query (pyLower (pyStrip user_message)) then
    { intent := "policy_question",
      order_id := (router_slots (pyStrip user_message)).1,
      category := (router_slots (pyStrip user_message)).2.1,
      max_price := (router_slots (pyStrip user_message)).2.2 }
  -- 5) refund
  else if is_refund_query (pyLower (pyStrip user_message)) then
    { intent := "refund",
      order_id := (router_slots (pyStrip user_message)).1,
      category := (router_slots (pyStrip user_message)).2.1,
      max_price := (router_slots (pyStrip user_message)).2.2 }
  -- 6) return / exchange
  else if is_return_query (pyLower (pyStrip user_message)) then
    { intent := "return_eligibility",
      order_id := (router_slots (pyStrip user_message)).1,
      category := (router_slots (pyStrip user_message)).2.1,
      max_price := (router_slots (pyStrip user_message)).2.2 }
  -- 7) warranty
  else if is_warranty_query (pyLower (pyStrip user_message)) then
    { intent := "warranty_status",
      order_id := (router_slots (pyStrip user_message)).1,
      category := (router_slots (pyStrip user_message)).2.1,
      max_price := (router_slots (pyStrip user_message)).2.2 }
  -- 8) product search, case A: category + search verb
  else if has_category_and_search_verb (pyLower (pyStrip user_message))
      (router_slots (pyStrip user_message)).2.1 then
    { intent := "product_search",
      order_id := (router_slots (pyStrip user_message)).1,
      category := (router_slots (pyStrip user_message)).2.1,
      max_price := (router_slots (pyStrip user_message)).2.2 }
  -- case B: explicit catalogue questions (category left unset = all)
  else if is_catalogue_query (pyLower (pyStrip user_message)) then
    { intent := "product_search",
      order_id := (router_slots (pyStrip user_message)).1,
      category := none,
      max_price := (router_slots (pyStrip user_message)).2.2 }
  -- case C: asking about products we sell
  else if is_sell_products_query (pyLower (pyStrip user_message)) then
    { intent := "product_search",
      order_id := (router_slots (pyStrip user_message)).1,
      category := none,
      max_price := (router_slots (pyStrip user_message)).2.2 }
  -- 9) default
  else
    { intent := "general_rag",
      order_id := (router_slots (pyStrip user_message)).1,
      category := (router_slots (pyStrip user_message)).2.1,
      max_price := (router_slots (pyStrip user_message)).2.2 }

/-- The cascade lands in product-search case B or C for this message:
every earlier rule (troubleshooting, chitchat, date query, order status,
policy, refund, return, warranty, and case A) declines, and a
catalogue-phrase or sell-products phrase matches.  These are exactly the
two branches of `detect_intent` that discard the category slot
(`category: None  # means "all categories"` in the source). -/
def lands_in_catalogue_branch (msg : String) : Bool :=
  !is_troubleshooting_issue (pyLower (pyStrip msg))
    && !is_chitchat (pyLower (pyStrip msg))
    && !is_date_query (pyLower (pyStrip msg))
    && !is_order_status_query (pyLower (pyStrip msg)) (router_slots (pyStrip msg)).1
    && !is_policy_query (pyLower (pyStrip msg))
    && !is_refund_query (pyLower (pyStrip msg))
    && !is_return_query (pyLower (pyStrip msg))
    && !is_warranty_query (pyLower (pyStrip msg))
    && !has_category_and_search_verb (pyLower (pyStrip msg)) (router_slots (pyStrip msg)).2.1
    && (is_catalogue_query (pyLower (pyStrip msg))
        || is_sell_products_query (pyLower (pyStrip msg)))

/-! ## guardrails.py -/

structure GuardrailResult where
  allowed : Bool
  message : Option String
  reason : Option String
deriving DecidableEq

def BLOCKED_KEYWORDS : List String :=
  ["suicide", "kill myself", "harm myself", "bomb", "terrorist", "gun", "weapon"]

def DATING_KEYWORDS : List String :=
  ["date a girl", "date a boy", "date someone", "dating advice",
   "pick up line", "pickup line", "pick-up line", "flirt with",
   "flirting with", "crush on", "get a girlfriend", "get a boyfriend",
   "romantic advice", "seduce"]

def SEXUAL_KEYWORDS : List String :=
  ["sex", "sexual", "nsfw", "naughty", "hot girl", "hot boy", "horny"]

def ROMANTIC_PHRASES : List String :=
  ["in love with my laptop", "in love with her", "in love with him",
   "nights are going great"]

def ECOMMERCE_KEYWORDS : List String :=
  ["order", "refund", "return", "exchange", "replacement", "warranty",
   "shipping", "delivery", "tracking", "cart", "checkout", "payment",
   "invoice", "product", "products", "laptop", "headphone", "headphones",
   "device", "support", "policy", "store", "company", "status", "catalog",
   "catalogue", "catalog list", "product list", "offer", "offers", "setup",
   "bundle"]

def CHITCHAT_KEYWORDS : List String :=
  ["hi", "hello", "hey", "how are you", "how r you", "good morning",
   "good evening", "thank you", "thanks", "oh nice", "ohh nice", "nice",
   "cool", "great", "awesome", "ok", "okay"]

/-- Embeds `_contains_inappropriate_content`. -/
def contains_inappropriate_content (text : String) : Bool :=
  let lowered := pyLower text
  containsAny lowered DATING_KEYWORDS || containsAny lowered SEXUAL_KEYWORDS
    || containsAny lowered ROMANTIC_PHRASES

/-- Embeds `_is_clearly_out_of_domain`. -/
def is_clearly_out_of_domain (text : String) : Bool :=
  let lowered := pyLower text
  if containsAny lowered ECOMMERCE_KEYWORDS then false
  else if containsAny lowered CHITCHAT_KEYWORDS then false
  else true

def EMPTY_MESSAGE : String :=
  "Please enter a question related to your orders, products, returns, refunds, or warranty."

def SAFETY_MESSAGE : String :=
  "I\x27m not able to help with that topic. If you are in distress or feel unsafe, please reach out to trusted people around you or contact local emergency services or a helpline."

def INAPPROPRIATE_MESSAGE : String :=
  "I’m here to help with your orders, products, returns, refunds, warranty, shipping, and basic troubleshooting. I can’t assist with romantic, sexual, or personal dating requests. Please keep your questions related to the store and support topics."

def OUT_OF_DOMAIN_MESSAGE : String :=
  "I’m designed to assist with our online store: orders, returns, refunds, shipping, warranty, product suggestions, and troubleshooting device issues. Please ask a question related to these topics."

/-- Embeds `apply_guardrails`: the ordered, short-circuiting rule pipeline. -/
def apply_guardrails (user_message : String) : GuardrailResult :=
  -- `text = user_message.strip().lower()` of the source, inlined
  -- 0) empty input
  if pyLower (pyStrip user_message) = "" then
    { allowed := false, message := some EMPTY_MESSAGE, reason := some "empty" }
  -- 1) safety blocklist
  else if containsAny (pyLower (pyStrip user_message)) BLOCKED_KEYWORDS then
    { allowed := false, message := some SAFETY_MESSAGE, reason := some "safety" }
  -- 2) inappropriate content
  else if contains_inappropriate_content (pyLower (pyStrip user_message)) then
    { allowed := false, message := some INAPPROPRIATE_MESSAGE, reason := some "inappropriate" }
  -- 3) domain guardrail
  else if is_clearly_out_of_domain (pyLower (pyStrip user_message)) then
    { allowed := false, message := some OUT_OF_DOMAIN_MESSAGE, reason := some "out_of_domain" }
  -- 4) allowed
  else
    { allowed := true, message := none, reason := none }

/-! ## Dates (`datetime.strptime(s, "%Y-%m-%d")` and day arithmetic)

A parsed date is represented by its proleptic Gregorian ordinal, exactly
Python's `date.toordinal` (`0001-01-01` is day 1).  `datetime` subtraction
`(a - b).days` is then ordinal subtraction, and `a + timedelta(days = n)`
is `a + n`. -/

def isLeapYear (y : Nat) : Bool :=
  (y % 4 == 0 && y % 100 != 0) || y % 400 == 0

def daysInMonth (y m : Nat) : Nat :=
  if m = 2 then (if isLeapYear y then 29 else 28)
  else if m = 4 ∨ m = 6 ∨ m = 9 ∨ m = 11 then 30
  else 31

def daysBeforeYear (y : Nat) : Nat :=
  let n := y - 1
  365 * n + n / 4 + n / 400 - n / 100

def daysBeforeMonth (y m : Nat) : Nat :=
  (((List.range (m - 1)).map (fun i => daysInMonth y (i + 1)))).sum

/-- Python `date(y, m, d).toordinal()`. -/
def toOrdinal (y m d : Nat) : Nat :=
  daysBeforeYear y + daysBeforeMonth y m + d

/-- Python `s.split("-")` on char lists. -/
def splitDash : List Char → List (List Char)
  | [] => [[]]
  | c :: t =>
    if c = '-' then [] :: splitDash t
    else
      match splitDash t with
      | [] => [[c]]
      | g :: gs => (c :: g) :: gs

/-- A nonempty all-digit group, as a number. -/
def parseNatAll (l : List Char) : Option Nat :=
  if l ≠ [] ∧ l.all Char.isDigit then some (digitsToNat l) else none

/-- Embeds `datetime.strptime(s, "%Y-%m-%d")`: a 4-digit year, a 1-2 digit month
and a 1-2 digit day, all in range for the Gregorian calendar; the result
is the date's ordinal.  Any other string fails to parse.  (In Python a
malformed nonempty string raises `ValueError`, which the tool dispatcher
converts to an `error` result; this embedding folds that case into `none`.
The claims proved below all pin the parse-success paths by hypothesis, so
the two conventions agree there.) -/
def parseDateStr (s : String) : Option Nat :=
  match splitDash s.data with
  | [ys, ms, ds] =>
    match parseNatAll ys, parseNatAll ms, parseNatAll ds with
    | some y, some m, some d =>
      if ys.length = 4 ∧ 1 ≤ y ∧ (ms.length = 1 ∨ ms.length = 2) ∧ 1 ≤ m ∧ m ≤ 12
          ∧ (ds.length = 1 ∨ ds.length = 2) ∧ 1 ≤ d ∧ d ≤ daysInMonth y m then
        some (toOrdinal y m d)
      else none
    | _, _, _ => none
  | _ => none

/-- Embeds `parse_date` of returns_tool.py / warranty_tool.py: `None` and the
empty string are not parsed. -/
def parseDateOpt (o : Option String) : Option Nat :=
  match o with
  | none => none
  | some s => parseDateStr s

/-! ## Structured record stores (`orders.json`, `products.json`) -/

structure OrderItem where
  product_id : String
  quantity : Nat
deriving DecidableEq

structure Order where
  order_id : String
  user_id : String
  status : Option String
  order_date : Option String
  delivery_date : Option String
  items : List OrderItem
deriving DecidableEq

structure Product where
  product_id : String
  name : String
  category : Option String
  brand : Option String
  price : Int
  currency : Option String
  tags : List String
  rating : Option Int
deriving DecidableEq

/-- Embeds `find_order` / `find_order_by_id` (order_tool.py, returns_tool.py,
warranty_tool.py all define the same linear scan): first order with the
given id. -/
def find_order (orders : List Order) (order_id : String) : Option Order :=
  orders.find? (fun o => o.order_id == order_id)

/-- Embeds `build_product_index()` followed by `index.get(pid)`: the index is a
dict keyed by `product_id`, so a later product with the same id overwrites
an earlier one — lookup returns the last match. -/
def findProductLast (products : List Product) (pid : String) : Option Product :=
  products.foldl (fun acc p => if p.product_id == pid then some p else acc) none

/-! ## order_tool.py -/

structure OrderStatusResult where
  found : Bool
  order_id : String
  status : Option String
  delivery_date : Option String
  items : List OrderItem
  message : String
deriving DecidableEq

/-- Embeds `get_order_status_tool`. -/
def get_order_status (orders : List Order) (order_id : String) : OrderStatusResult :=
  match find_order orders order_id with
  | none =>
    { found := false, order_id := order_id, status := none, delivery_date := none,
      items := [], message := "No order found with ID " ++ order_id ++ "." }
  | some order =>
    let msg :=
      if order.status = some "delivered" then
        "Order " ++ order_id ++ " has been delivered on " ++ pyStr order.delivery_date ++ "."
      else if order.status = some "shipped" then
        "Order " ++ order_id ++ " has been shipped. Estimated delivery date: "
          ++ pyStr order.delivery_date ++ "."
      else if order.status = some "processing" then
        "Order " ++ order_id ++ " is currently being processed."
      else
        "Order " ++ order_id ++ " has status: " ++ pyStr order.status ++ "."
    { found := true, order_id := order_id, status := order.status,
      delivery_date := order.delivery_date, items := order.items, message := msg }

/-! ## returns_tool.py -/

structure ReturnsResult where
  found : Bool
  eligible : Bool
  order_id : String
  status : Option String
  delivery_date : Option String
  days_since_delivery : Option Int
  reason : String
deriving DecidableEq

/-- Embeds `check_return_eligibility_tool`. -/
def check_return_eligibility (orders : List Order) (products : List Product)
    (order_id today : String) : ReturnsResult :=
  match find_order orders order_id with
  | none =>
    { found := false, eligible := false, order_id := order_id, status := none,
      delivery_date := none, days_since_delivery := none,
      reason := "No order found with ID " ++ order_id ++ "." }
  | some order =>
    match parseDateOpt order.delivery_date with
    | none =>
      { found := true, eligible := false, order_id := order_id,
        status := order.status, delivery_date := order.delivery_date,
        days_since_delivery := none,
        reason := "Order has not been delivered yet. Returns are only possible after delivery." }
    | some delivery_date =>
      match parseDateStr today with
      | none =>
        { found := true, eligible := false, order_id := order_id,
          status := order.status, delivery_date := order.delivery_date,
          days_since_delivery := none,
          reason := "Invalid \x27today\x27 date provided." }
      | some today_dt =>
        let days_since : Int := (today_dt : Int) - (delivery_date : Int)
        let categories := order.items.filterMap
          (fun item => (findProductLast products item.product_id).map
            (fun p => pyLower (p.category.getD "")))
        let is_electronic := categories.any
          (fun c => c == "laptop" || c == "headphones" || c == "phone" || c == "electronics")
        let return_window_days : Int := if is_electronic then 7 else 7
        if days_since ≤ return_window_days then
          { found := true, eligible := true, order_id := order_id,
            status := order.status, delivery_date := order.delivery_date,
            days_since_delivery := some days_since,
            reason := "Order " ++ order_id ++ " is within the "
              ++ toString return_window_days ++ "-day return window (delivered "
              ++ toString days_since ++ " day(s) ago)." }
        else
          { found := true, eligible := false, order_id := order_id,
            status := order.status, delivery_date := order.delivery_date,
            days_since_delivery := some days_since,
            reason := "Order " ++ order_id ++ " is outside the "
              ++ toString return_window_days ++ "-day return window (delivered "
              ++ toString days_since ++ " day(s) ago)." }

/-! ## refund_tool.py -/

structure RefundResult where
  found : Bool
  refundable : Bool
  order_id : String
  status : Option String
  delivery_date : Option String
  reason : String
  /-- The `expected_refund_timeline` sentence names one concrete date,
  `today + timedelta(days=7)`; it is represented by that date's ordinal. -/
  expected_refund_timeline : Option Int
deriving DecidableEq

/-- Embeds `check_refund_possibility_tool`: refund is possible exactly when the
order is return-eligible; the timeline estimates `today + 7 days`. -/
def check_refund_possibility (orders : List Order) (products : List Product)
    (order_id today : String) : RefundResult :=
  -- `eligibility = check_return_eligibility_tool.invoke(...)` of the
  -- source, inlined at each use
  if (check_return_eligibility orders products order_id today).found = false then
    { found := false, refundable := false, order_id := order_id, status := none,
      delivery_date := none,
      reason := (check_return_eligibility orders products order_id today).reason,
      expected_refund_timeline := none }
  else if (check_return_eligibility orders products order_id today).eligible = false then
    { found := true, refundable := false, order_id := order_id,
      status := (check_return_eligibility orders products order_id today).status,
      delivery_date := (check_return_eligibility orders products order_id today).delivery_date,
      reason := (check_return_eligibility orders products order_id today).reason
        ++ " Since the order is not eligible for return, a refund cannot be processed.",
      expected_refund_timeline := none }
  else
    { found := true, refundable := true, order_id := order_id,
      status := (check_return_eligibility orders products order_id today).status,
      delivery_date := (check_return_eligibility orders products order_id today).delivery_date,
      reason := (check_return_eligibility orders products order_id today).reason
        ++ " Since the order is eligible for return, a refund can be issued to the original payment method once the return is completed.",
      expected_refund_timeline :=
        (parseDateStr today).map (fun today_dt => (today_dt : Int) + 7) }

/-! ## troubleshooting_tool.py -/

def TROUBLESHOOTING_DATA : List (String × List (String × List String)) :=
  [("laptop",
    [("not_turning_on",
      ["Check the power cable and ensure it is firmly connected.",
       "Verify that the wall outlet is working by testing another device.",
       "If the battery is removable, remove it, connect the power cable, and hold the power button for 10 seconds.",
       "If the laptop still does not turn on, contact support."]),
     ("overheating",
      ["Ensure that the laptop vents are not blocked and are free of dust.",
       "Use the laptop on a hard, flat surface for better airflow.",
       "Close heavy background applications that might be stressing the CPU or GPU.",
       "If overheating continues, consider cleaning the fan or contacting support."]),
     ("not_working_generic",
      ["Restart the laptop and check if the issue persists.",
       "Make sure your operating system and drivers are up to date.",
       "Check if the issue is limited to a specific app or happens everywhere.",
       "If the problem continues, note down any error messages and contact support."])]),
   ("headphones",
    [("no_sound",
      ["Check the Bluetooth connection or audio cable connection.",
       "Ensure the volume is not muted on the connected device.",
       "Try pairing the headphones with another device to isolate the issue."]),
     ("distorted_sound",
      ["Reduce the volume slightly to see if the sound becomes clearer.",
       "Check if the audio source quality is low or heavily compressed.",
       "Try a different app or media file to confirm."]),
     ("not_working_generic",
      ["Check if the headphones are powered on and sufficiently charged.",
       "Unpair and re-pair the headphones with your device.",
       "Test the headphones with a different phone or laptop to see if the issue is device-specific.",
       "If the problem persists, you may need to contact support or explore warranty options."])])]

/-- Python dict lookup on a literal association list. -/
def alistGet {α : Type} (l : List (String × α)) (k : String) : Option α :=
  (l.find? (fun p => p.1 == k)).map (fun p => p.2)

/-- Embeds `_normalize_product_type`: free text to a supported product type; the
fallback for anything that names neither a laptop nor headphones is
`"laptop"`. -/
def normalize_product_type (product_type : String) : String :=
  -- `lowered = (product_type or "").lower()` of the source, inlined
  if strContains (pyLower product_type) "laptop" then "laptop"
  else if strContains (pyLower product_type) "headphone"
      || strContains (pyLower product_type) "headset" then "headphones"
  else "laptop"

/-- Embeds `_infer_issue_key`: ordered substring predicates for the issue key. -/
def infer_issue_key (_product_type issue : String) : Option String :=
  let lowered := pyLower issue
  if strContains lowered "not turning on" || strContains lowered "won\x27t turn on"
      || strContains lowered "does not turn on" || strContains lowered "doesn\x27t turn on"
      || strContains lowered "won\x27t power on" || strContains lowered "dead"
      || strContains lowered "no power" then
    some "not_turning_on"
  else if strContains lowered "no sound" || strContains lowered "no audio"
      || strContains lowered "cannot hear" || strContains lowered "silent" then
    some "no_sound"
  else if strContains lowered "overheat" || strContains lowered "too hot"
      || strContains lowered "getting hot" || strContains lowered "heating"
      || strContains lowered "heat" || strContains lowered "hot" then
    some "overheating"
  else if strContains lowered "not working" || strContains lowered "not working properly"
      || strContains lowered "stopped working" || strContains lowered "broken" then
    some "not_working_generic"
  else none

structure TroubleshootResult where
  found : Bool
  product_type : String
  issue_key : Option String
  steps : List String
  message : String
deriving DecidableEq


/-- The argument dict passed to a tool `invoke`; absent keys are `none`. -/
structure ToolArgs where
  user_id : Option String
  order_id : Option String
  product_id : Option String
  today : Option String
  category : Option String
  product_type : Option String
  issue : Option String
  query : Option String
  max_price : Option Int
  brand : Option String
  required_tags : Option (List String)
deriving DecidableEq

/-- The all-absent argument dict. -/
def noArgs : ToolArgs :=
  { user_id := none, order_id := none, product_id := none, today := none,
    category := none, product_type := none, issue := none, query := none,
    max_price := none, brand := none, required_tags := none }

/-- Embeds `GetTroubleshootingStepsTool.invoke`:  normalize the product type,
infer an issue key, look up canned steps; a nonempty step list is a hit
(Python tests `if steps:`, so `None` and `[]` are both misses). -/
def get_troubleshooting_steps (args : ToolArgs) : TroubleshootResult :=
  let product_type := args.product_type.getD "laptop"
  let issue := args.issue.getD ""
  let norm_type := normalize_product_type product_type
  let issue_key := infer_issue_key norm_type issue
  let data_for_type := (alistGet TROUBLESHOOTING_DATA norm_type).getD []
  let steps :=
    match issue_key with
    | some k => alistGet data_for_type k
    | none => none
  let notFound : TroubleshootResult :=
    { found := false, product_type := norm_type, issue_key := none, steps := [],
      message := "No troubleshooting steps found for issue \x27" ++ issue
        ++ "\x27 on \x27" ++ norm_type
        ++ "\x27. You can try describing the problem in more detail, or check if it is related to power, sound, or overheating." }
  match steps with
  | some st =>
    if st = [] then notFound
    else
      let pretty_issue : String :=
        String.mk ((issue_key.getD "").data.map (fun c => if c = '_' then ' ' else c))
      let lines :=
        ("Here are some troubleshooting steps for your " ++ norm_type
          ++ " (" ++ pretty_issue ++ "):")
        :: (st.enum.map (fun p => toString (p.1 + 1) ++ ". " ++ p.2))
      { found := true, product_type := norm_type, issue_key := issue_key,
        steps := st, message := joinWith "\n" lines }
  | none => notFound

/-! ## user_tool.py -/

/-- Embeds `s.zfill(3)`: left-pad with zeros to width 3. -/
def zfill3 (s : String) : String :=
  if 3 ≤ s.length then s else String.mk (List.replicate (3 - s.length) '0' ++ s.data)

/-- Python `s.isdigit()` (nonempty and all digits). -/
def pyIsDigitStr (s : String) : Bool := !s.data.isEmpty && s.data.all Char.isDigit

/-- Embeds `normalize_user_id`: strip/uppercase, turn a bare number into `U###`,
and force a leading `U`. -/
def normalize_user_id (user_id : String) : String :=
  let u := pyUpper (pyStrip user_id)
  let u := if pyIsDigitStr u then "U" ++ zfill3 u else u
  if !("U".data.isPrefixOf u.data) then "U" ++ u else u

structure OrderSummary where
  order_id : String
  status : Option String
  order_date : Option String
  delivery_date : Option String
  items : List String
deriving DecidableEq

structure UserOrdersResult where
  found : Bool
  user_id : String
  count : Nat
  orders : List OrderSummary
  message : String
deriving DecidableEq

/-- Embeds `find_orders_by_user_id_func`. -/
def find_orders_by_user_id_func (orders : List Order) (user_id : String) : List Order :=
  let normalized_user_id := normalize_user_id user_id
  orders.filter (fun o => normalize_user_id o.user_id == normalized_user_id)

/-- Embeds `FindOrdersByUserIdTool.invoke`. -/
def find_orders_by_user_id (orders : List Order) (args : ToolArgs) : UserOrdersResult :=
  let user_id := args.user_id.getD ""
  let normalized_user_id := normalize_user_id user_id
  let user_orders := find_orders_by_user_id_func orders user_id
  if user_orders = [] then
    { found := false, user_id := normalized_user_id, count := 0, orders := [],
      message := "No orders found for user " ++ normalized_user_id
        ++ ". Please check if the user ID is correct (format: U001, U002, etc.)." }
  else
    let order_summaries : List OrderSummary := user_orders.map (fun o =>
      { order_id := o.order_id, status := o.status, order_date := o.order_date,
        delivery_date := o.delivery_date,
        items := o.items.map (fun it =>
          it.product_id ++ " (qty: " ++ toString it.quantity ++ ")") })
    let message_lines :=
      ("Found " ++ toString user_orders.length ++ " order(s) for user "
        ++ normalized_user_id ++ ":")
      :: (order_summaries.enum.map (fun p =>
            toString (p.1 + 1) ++ ". Order " ++ p.2.order_id ++ " - Status: "
              ++ pyStr p.2.status ++ " - Items: " ++ joinWith ", " p.2.items))
    { found := true, user_id := normalized_user_id, count := user_orders.length,
      orders := order_summaries, message := joinWith "\n" message_lines }

/-! ## product_tool.py -/

/-- Python truthiness of an optional string (`None` and `""` are falsy). -/
def truthyS : Option String → Bool
  | none => false
  | some s => !(s == "")

structure ProductSummary where
  product_id : String
  name : String
  category : Option String
  brand : Option String
  price : Int
  currency : String
  tags : List String
  rating : Option Int
deriving DecidableEq

structure ProductSearchResult where
  count : Nat
  products : List ProductSummary
  message : String
deriving DecidableEq

/-- The `matches` predicate of `filter_products`: every provided filter is
an AND condition. -/
def product_matches (category : Option String) (max_price : Option Int)
    (brand : Option String) (required_tags : List String) (p : Product) : Bool :=
  if truthyS category && !(pyLower (p.category.getD "") == pyLower (category.getD "")) then
    false
  else if truthyS brand && !(pyLower (p.brand.getD "") == pyLower (brand.getD "")) then
    false
  else if max_price.isSome && decide (max_price.getD 0 < p.price) then
    false
  else
    required_tags.all (fun t => (p.tags.map pyLower).contains (pyLower t))

/-- Embeds `filter_products`. -/
def filter_products (products : List Product) (category : Option String)
    (max_price : Option Int) (brand : Option String)
    (required_tags : Option (List String)) : List Product :=
  products.filter (product_matches category max_price brand (required_tags.getD []))

/-- Embeds `search_products_tool`. -/
def search_products (products : List Product) (category : Option String)
    (max_price : Option Int) (brand : Option String)
    (required_tags : Option (List String)) : ProductSearchResult :=
  let matching := filter_products products category max_price brand required_tags
  let simplified : List ProductSummary := matching.map (fun p =>
    { product_id := p.product_id, name := p.name, category := p.category,
      brand := p.brand, price := p.price, currency := p.currency.getD "INR",
      tags := p.tags, rating := p.rating })
  let msg :=
    if simplified = [] then "No products found matching the given filters."
    else "Found " ++ toString simplified.length ++ " product(s) matching the given filters."
  { count := simplified.length, products := simplified, message := msg }

/-! ## warranty_tool.py -/

/-- Embeds `get_warranty_days_for_category`. -/
def get_warranty_days_for_category (category : String) : Int :=
  let cat := pyLower category
  if cat = "laptop" then 365
  else if cat = "headphones" then 180
  else 90

structure WarrantyResult where
  found_order : Bool
  found_product : Bool
  in_warranty : Option Bool
  order_id : String
  product_id : String
  category : Option String
  purchase_date : Option String
  /-- Embeds `warranty_end_date` (an ISO date string in Python) as an ordinal. -/
  warranty_end_date : Option Int
  days_since_purchase : Option Int
  reason : String
deriving DecidableEq

/-- Python `a or b` for optional strings (`None` and `""` are falsy). -/
def orElseStr (a b : Option String) : Option String :=
  match a with
  | some s => if s = "" then b else some s
  | none => b

/-- Embeds `check_warranty_status_tool`. -/
def check_warranty_status (orders : List Order) (products : List Product)
    (order_id product_id today : String) : WarrantyResult :=
  match find_order orders order_id with
  | none =>
    { found_order := false, found_product := false, in_warranty := none,
      order_id := order_id, product_id := product_id, category := none,
      purchase_date := none, warranty_end_date := none, days_since_purchase := none,
      reason := "No order found with ID " ++ order_id ++ "." }
  | some order =>
    if !(order.items.any (fun item => item.product_id == product_id)) then
      { found_order := true, found_product := false, in_warranty := none,
        order_id := order_id, product_id := product_id, category := none,
        purchase_date := none, warranty_end_date := none, days_since_purchase := none,
        reason := "Product " ++ product_id ++ " is not part of order " ++ order_id ++ "." }
    else
      let product := findProductLast products product_id
      let category := product.map (fun p => pyLower (p.category.getD ""))
      let purchase_date_str := orElseStr order.delivery_date order.order_date
      match parseDateOpt purchase_date_str, parseDateStr today with
      | some purchase_date, some today_dt =>
        let days_since_purchase : Int := (today_dt : Int) - (purchase_date : Int)
        let warranty_days := get_warranty_days_for_category (category.getD "")
        let warranty_end_date : Int := (purchase_date : Int) + warranty_days
        let in_warranty : Bool := decide ((today_dt : Int) ≤ warranty_end_date)
        { found_order := true, found_product := true, in_warranty := some in_warranty,
          order_id := order_id, product_id := product_id, category := category,
          purchase_date := purchase_date_str,
          warranty_end_date := some warranty_end_date,
          days_since_purchase := some days_since_purchase,
          reason :=
            if in_warranty then
              "Product " ++ product_id ++ " in order " ++ order_id
                ++ " is still under warranty. Warranty duration is "
                ++ toString warranty_days ++ " days from " ++ pyStr purchase_date_str
                ++ ", ending on " ++ toString warranty_end_date ++ ". (Purchased "
                ++ toString days_since_purchase ++ " day(s) ago.)"
            else
              "Product " ++ product_id ++ " in order " ++ order_id
                ++ " is no longer under warranty. Warranty duration was "
                ++ toString warranty_days ++ " days from " ++ pyStr purchase_date_str
                ++ ", which ended on " ++ toString warranty_end_date ++ ". (Purchased "
                ++ toString days_since_purchase ++ " day(s) ago.)" }
      | _, _ =>
        { found_order := true, found_product := true, in_warranty := none,
          order_id := order_id, product_id := product_id, category := category,
          purchase_date := purchase_date_str, warranty_end_date := none,
          days_since_purchase := none,
          reason := "Invalid or missing purchase date or \x27today\x27 date." }

/-! ## agent/orchestrator.py

The Gemini client is external: a run of the agentic loop is determined by
the model's reply on each processed turn, modelled as `model : Nat →
ModelResponse` (`model k` is the reply the loop examines on iteration
`k`).  A reply either requests one tool call, or carries final text, or is
malformed (no candidates / no content parts / an unexpected part), which
makes the loop `break`. -/

/-- The RAG answerer contract (`answer_with_rag`). -/
structure RagResult where
  answer : String
  sources : List String
deriving DecidableEq

/-- The external collaborators and record stores the orchestrator uses. -/
structure Env where
  orders : List Order
  products : List Product
  rag : String → RagResult

/-- One model reply, as examined by the loop body. -/
inductive ModelResponse where
  | toolCall (name : String) (args : ToolArgs)
  | finalText (text : String)
  | malformed
deriving DecidableEq

/-- The envelope a dispatched tool call produces: one of the tool result
dicts, the RAG special case's `{answer, sources}` dict, or an `{error}`
dict (unknown tool, or an exception converted by the dispatcher). -/
inductive DispatchResult where
  | orderStatus (r : OrderStatusResult)
  | returns (r : ReturnsResult)
  | refund (r : RefundResult)
  | troubleshooting (r : TroubleshootResult)
  | userOrders (r : UserOrdersResult)
  | products (r : ProductSearchResult)
  | warranty (r : WarrantyResult)
  | rag (answer : String) (sources : List String)
  | err (error : String)
deriving DecidableEq

/-- Python `"message" in tool_result and tool_result["message"]`: the value
of the `message` key of the underlying dict, when that dict has one. -/
def dictMessage : DispatchResult → Option String
  | .orderStatus r => some r.message
  | .returns _ => none
  | .refund _ => none
  | .troubleshooting r => some r.message
  | .userOrders r => some r.message
  | .products r => some r.message
  | .warranty _ => none
  | .rag _ _ => none
  | .err _ => none

/-- The value of the `error` key of the underlying dict, when present. -/
def dictError : DispatchResult → Option String
  | .err e => some e
  | _ => none

/-- The names in the `tool_map` dispatch table of `execute_tool_call`. -/
def TOOL_MAP_NAMES : List String :=
  ["find_orders_by_user_id", "get_order_status", "search_products",
   "check_return_eligibility", "check_refund_possibility",
   "check_warranty_status", "get_troubleshooting_steps"]

/-- Embeds `execute_tool_call`: inject `today` for the date-sensitive tools,
special-case the RAG policy search, dispatch through `tool_map`, and turn
an unknown tool name into a structured `{error}` result instead of an
exception.  (A tool invocation that would raise in Python — a missing
required argument — is likewise caught and converted to `{error}`.) -/
def inject_today (tool_name : String) (tool_args : ToolArgs) (today : String) : ToolArgs :=
  if tool_name ∈ (["check_return_eligibility", "check_refund_possibility",
      "check_warranty_status"] : List String) ∧ tool_args.today = none then
    { tool_args with today := some today }
  else tool_args

def execute_tool_call (env : Env) (tool_name : String) (tool_args : ToolArgs)
    (today : String) : DispatchResult :=
  if tool_name = "search_policy_docs" then
    .rag (env.rag ((inject_today tool_name tool_args today).query.getD "")).answer
      (env.rag ((inject_today tool_name tool_args today).query.getD "")).sources
  else if tool_name = "find_orders_by_user_id" then
    .userOrders (find_orders_by_user_id env.orders (inject_today tool_name tool_args today))
  else if tool_name = "get_order_status" then
    match (inject_today tool_name tool_args today).order_id with
    | some oid => .orderStatus (get_order_status env.orders oid)
    | none => .err "get_order_status: missing required argument order_id"
  else if tool_name = "search_products" then
    .products (search_products env.products
      (inject_today tool_name tool_args today).category
      (inject_today tool_name tool_args today).max_price
      (inject_today tool_name tool_args today).brand
      (inject_today tool_name tool_args today).required_tags)
  else if tool_name = "check_return_eligibility" then
    match (inject_today tool_name tool_args today).order_id,
        (inject_today tool_name tool_args today).today with
    | some oid, some t => .returns (check_return_eligibility env.orders env.products oid t)
    | _, _ => .err "check_return_eligibility: missing required argument"
  else if tool_name = "check_refund_possibility" then
    match (inject_today tool_name tool_args today).order_id,
        (inject_today tool_name tool_args today).today with
    | some oid, some t => .refund (check_refund_possibility env.orders env.products oid t)
    | _, _ => .err "check_refund_possibility: missing required argument"
  else if tool_name = "check_warranty_status" then
    match (inject_today tool_name tool_args today).order_id,
        (inject_today tool_name tool_args today).product_id,
        (inject_today tool_name tool_args today).today with
    | some oid, some pid, some t =>
      .warranty (check_warranty_status env.orders env.products oid pid t)
    | _, _, _ => .err "check_warranty_status: missing required argument"
  else if tool_name = "get_troubleshooting_steps" then
    .troubleshooting (get_troubleshooting_steps (inject_today tool_name tool_args today))
  else
    .err ("Unknown tool: " ++ tool_name)

/-- The entry appended to `tool_calls_log` for each requested call. -/
structure ToolCallRecord where
  tool : String
  args : ToolArgs
deriving DecidableEq

/-- How the bounded loop of `handle_user_message_agentic` ends: with final
text from the model (after `iterations` processed turns), or with no final
answer (cap exhausted, or a malformed reply broke the loop), carrying the
log and the last tool result. -/
inductive LoopEnd where
  | finalAnswer (text : String) (iterations : Nat) (log : List ToolCallRecord)
  | noAnswer (log : List ToolCallRecord) (last : Option DispatchResult)
deriving DecidableEq

/-- The `for iteration in range(10)` loop body: `fuel` is the number of
remaining iterations, `k` the current iteration index, `log` the tool-call
log so far and `last` the last tool result. -/
def runLoop (env : Env) (model : Nat → ModelResponse) (today : String) :
    Nat → Nat → List ToolCallRecord → Option DispatchResult → LoopEnd
  | 0, _, log, last => .noAnswer log last
  | fuel + 1, k, log, last =>
    match model k with
    | .malformed => .noAnswer log last
    | .finalText t => .finalAnswer t (k + 1) log
    | .toolCall name args =>
      runLoop env model today fuel (k + 1) (log ++ [{ tool := name, args := args }])
        (some (execute_tool_call env name args today))

/-- The `OrchestrationResult` dict every orchestrator path returns. -/
structure OrchResult where
  intent : String
  answer : String
  route : String
  tool_calls : List ToolCallRecord
  iterations : Nat
  router_info : RouterResult
deriving DecidableEq

def PRIVATE_INTENTS : List String :=
  ["order_status", "return_eligibility", "refund", "warranty_status"]

def PUBLIC_INTENTS : List String :=
  ["product_search", "policy_question", "general_rag", "chitchat",
   "date_query", "troubleshooting"]

def AUTH_PROMPT_ANSWER : String :=
  "To help with your order, return, refund, or warranty query, I need to identify you. You can either:\n1. Log in to your account (top right), OR\n2. Provide your User ID (e.g., U001, U002)\n\nIf you don\x27t know your User ID, you can ask me to look it up by email."

def NO_API_KEY_ANSWER : String :=
  "API key not configured. Please set GEMINI_API_KEY or GOOGLE_API_KEY in your .env file."

def MAX_ITER_FALLBACK_ANSWER : String :=
  "I gathered some information but encountered an issue generating the final response. Please try rephrasing your question."

/-- Embeds `handle_user_message_fallback`: answer with RAG, tagged `fallback:rag`. -/
def handle_user_message_fallback (env : Env) (user_message : String)
    (router_info : RouterResult) (intent : String) : OrchResult :=
  { intent := intent, answer := (env.rag user_message).answer,
    route := "fallback:rag", tool_calls := [], iterations := 0,
    router_info := router_info }

/-- Embeds `handle_user_message_agentic`: detect the intent; short-circuit the
built-in intents (chitchat, date query) and the auth gate for private
intents without an identity; check the API key; then drive the bounded
tool-calling loop and assemble the result exactly as the source does. -/
def handle_user_message_agentic (env : Env) (model : Nat → ModelResponse)
    (apiKey : Option String) (user_message : String) (user_id : Option String)
    (today : String) : OrchResult :=
  if (detect_intent user_message).intent = "chitchat" then
    let lowered := pyLower (pyStrip user_message)
    let ans :=
      if strContains lowered "how are you" || strContains lowered "how r you" then
        "I\x27m doing great and ready to help you! How can I assist you today?"
      else if strContains lowered "who are you" then
        "I\x27m an AI assistant for Antigravity Electronics. I can help with orders, returns, refunds, warranty, product recommendations, and troubleshooting."
      else if strContains lowered "what can you do" then
        "I can help you:\nâ€¢ Track orders and check delivery status\nâ€¢ Check return and refund eligibility\nâ€¢ Look up warranty information\nâ€¢ Suggest products based on your needs\nâ€¢ Assist with device troubleshooting\nâ€¢ Answer questions about our policies"
      else if strContains lowered "thank" then
        "You\x27re welcome! Feel free to ask if you need anything else."
      else
        "Hi! I\x27m here to help with orders, products, returns, refunds, and more. What can I do for you?"
    { intent := (detect_intent user_message).intent, answer := ans, route := "builtin:chitchat",
      tool_calls := [], iterations := 0, router_info := detect_intent user_message }
  else if (detect_intent user_message).intent = "date_query" then
    { intent := (detect_intent user_message).intent, answer := "Today\x27s date is " ++ today ++ ".",
      route := "builtin:date", tool_calls := [], iterations := 0,
      router_info := detect_intent user_message }
  else if (detect_intent user_message).intent ∈ PRIVATE_INTENTS ∧ user_id = none then
    { intent := (detect_intent user_message).intent, answer := AUTH_PROMPT_ANSWER,
      route := "auth:user_id_required", tool_calls := [], iterations := 0,
      router_info := detect_intent user_message }
  else if apiKey = none then
    { intent := (detect_intent user_message).intent, answer := NO_API_KEY_ANSWER, route := "error:no_api_key",
      tool_calls := [], iterations := 0, router_info := detect_intent user_message }
  else
    match runLoop env model today 10 0 [] none with
    | .finalAnswer text iterations log =>
      { intent := (detect_intent user_message).intent, answer := text, route := "gemini:agentic_function_calling",
        tool_calls := log, iterations := iterations, router_info := detect_intent user_message }
    | .noAnswer log last =>
      if log = [] then
        -- no tools called: fall back
        handle_user_message_fallback env user_message (detect_intent user_message)
          (detect_intent user_message).intent
      else
        { intent := (detect_intent user_message).intent,
          answer :=
            match last with
            | some tool_result =>
              match dictMessage tool_result with
              | some m => m
              | none => MAX_ITER_FALLBACK_ANSWER
            | none => MAX_ITER_FALLBACK_ANSWER,
          route := "gemini:max_iterations_with_tools", tool_calls := log,
          iterations := 10, router_info := detect_intent user_message }

/-! ## app.py (`/chat` endpoint) -/

/-- The `ChatResponse` pydantic model. -/
structure ChatResponse where
  answer : String
  intent : String
  route : String
  session_id : String
  tool_calls : List ToolCallRecord
  iterations : Nat
  router_info : RouterResult
  from_cache : Bool
  guardrail_triggered : Bool
  guardrail_reason : Option String
deriving DecidableEq

def EMPTY_ROUTER_INFO : RouterResult :=
  { intent := "", order_id := none, category := none, max_price := none }

/-- Embeds `chat_endpoint`: apply the guardrails, short-circuit on a block, and
otherwise run the orchestrator (abstracted here as `orchestrate`, since the
endpoint passes the session's history and user to
`handle_user_message`).  Both return paths of the source construct their
`ChatResponse` with `from_cache=False`; no cache is consulted or filled. -/
def chat_endpoint (orchestrate : String → OrchResult) (user_message : String)
    (session_id : String) : ChatResponse :=
  -- `gr = apply_guardrails(raw_message)` and `result = handle_user_message(...)`
  -- of the source, inlined at each use
  if (apply_guardrails user_message).allowed = false then
    { answer := (apply_guardrails user_message).message.getD "I cannot respond to this request.",
      intent := "guardrail",
      route := "guardrail:" ++ pyStr (apply_guardrails user_message).reason,
      session_id := session_id, tool_calls := [], iterations := 0,
      router_info := EMPTY_ROUTER_INFO, from_cache := false,
      guardrail_triggered := true,
      guardrail_reason := (apply_guardrails user_message).reason }
  else
    { answer := (orchestrate user_message).answer,
      intent := (orchestrate user_message).intent,
      route := (orchestrate user_message).route,
      session_id := session_id,
      tool_calls := (orchestrate user_message).tool_calls,
      iterations := (orchestrate user_message).iterations,
      router_info := (orchestrate user_message).router_info,
      from_cache := false, guardrail_triggered := false,
      guardrail_reason := none }

/-! ## Concrete fixtures used by the witnesses -/

/-- A minimal environment: empty record stores and a RAG answerer with a
fixed reply. -/
def env0 : Env :=
  { orders := [], products := [],
    rag := fun _ => { answer := "Our policy documents do not cover that.", sources := [] } }

/-- A shipped order whose stored `delivery_date` is an estimate in the
future. -/
def order9 : Order :=
  { order_id := "ORD9", user_id := "U001", status := some "shipped",
    order_date := some "2025-12-01", delivery_date := some "2025-12-10",
    items := [] }

def argsOrd1 : ToolArgs := { noArgs with order_id := some "ORD1" }

/-- A reasoning-model stub that requests the same tool call on every turn. -/
def modelAlwaysTool : Nat → ModelResponse :=
  fun _ => .toolCall "get_order_status" argsOrd1

/-- A model stub that requests an unknown tool once and then finishes. -/
def modelUnknownThenDone : Nat → ModelResponse :=
  fun k => if k = 0 then .toolCall "frobnicate" noArgs else .finalText "done"

/-- A model stub that never produces a usable reply. -/
def modelSilent : Nat → ModelResponse := fun _ => .malformed

/-! ## Helper lemmas: whitespace stripping cannot create an order-id match

These support C9: an occurrence of `\bORD\d+\b` in the stripped message
would already be an occurrence in the raw message, because the stripped
text is an infix of the raw text delimited by whitespace, and whitespace
characters are not word characters. -/

theorem mem_takeWhile_sat {p : Char → Bool} :
    ∀ {l : List Char} {c : Char}, c ∈ l.takeWhile p → p c = true := by
  intro l
  induction l with
  | nil => intro c h; simp [List.takeWhile] at h
  | cons a t ih =>
    intro c h
    by_cases hp : p a
    · simp [List.takeWhile, hp] at h
      rcases h with h | h
      · rwa [h]
      · exact ih h
    · simp [List.takeWhile, hp] at h

theorem takeWhile_append_not {p : Char → Bool} (xs v : List Char)
    (hv : ∀ c ∈ v, p c = false) : (xs ++ v).takeWhile p = xs.takeWhile p := by
  induction xs with
  | nil =>
    simp only [List.nil_append]
    cases v with
    | nil => rfl
    | cons c t => simp [List.takeWhile, hv c (by simp)]
  | cons a t ih =>
    by_cases hp : p a
    · simp [List.takeWhile, hp, ih]
    · simp [List.takeWhile, hp]

theorem dropWhile_append_not {p : Char → Bool} (xs v : List Char)
    (hv : ∀ c ∈ v, p c = false) : (xs ++ v).dropWhile p = xs.dropWhile p ++ v := by
  induction xs with
  | nil =>
    simp only [List.nil_append]
    cases v with
    | nil => rfl
    | cons c t => simp [List.dropWhile, hv c (by simp)]
  | cons a t ih =>
    by_cases hp : p a
    · simp [List.dropWhile, hp, ih]
    · simp [List.dropWhile, hp]

theorem pyspace_flags {c : Char} (h : isPySpace c = true) :
    isWordChar c = false ∧ (c.toLower == 'o') = false ∧ c.isDigit = false := by
  simp only [isPySpace, Bool.or_eq_true, beq_iff_eq] at h
  rcases h with ((((h | h) | h) | h) | h) | h <;> subst h <;> decide

theorem ordMatchFrom_not_o {c : Char} (h : (c.toLower == 'o') = false)
    (l : List Char) : ordMatchFrom (c :: l) = none := by
  match l with
  | [] => rfl
  | [_] => rfl
  | r :: d :: rest => simp [ordMatchFrom, h]

theorem ordMatchFrom_append_ws {l v m : List Char}
    (hv : ∀ c ∈ v, isPySpace c = true) (h : ordMatchFrom l = some m) :
    ordMatchFrom (l ++ v) = some m := by
  have hvd : ∀ c ∈ v, Char.isDigit c = false := fun c hc => (pyspace_flags (hv c hc)).2.2
  match l with
  | [] => simp [ordMatchFrom] at h
  | [_] => simp [ordMatchFrom] at h
  | [_, _] => simp [ordMatchFrom] at h
  | o :: r :: d :: rest =>
    simp only [List.cons_append]
    simp only [ordMatchFrom] at h ⊢
    by_cases hc : (o.toLower == 'o' && r.toLower == 'r' && d.toLower == 'd') = true
    · simp only [hc, if_true] at h ⊢
      rw [takeWhile_append_not rest v hvd, dropWhile_append_not rest v hvd]
      by_cases he : (rest.takeWhile Char.isDigit).isEmpty
      · simp [he] at h
      · simp only [he, if_false] at h ⊢
        cases hd : rest.dropWhile Char.isDigit with
        | nil =>
          rw [hd] at h
          simp only [List.nil_append]
          cases v with
          | nil => exact h
          | cons a t =>
            have := (pyspace_flags (hv a (by simp))).1
            simp [this]
            simpa using h
        | cons a t =>
          rw [hd] at h
          simpa using h
    · simp only [Bool.not_eq_true] at hc
      rw [hc] at h
      simp at h

theorem scanOrd_append_ws {v : List Char} (hv : ∀ c ∈ v, isPySpace c = true) :
    ∀ (t : List Char) (b : Bool), scanOrd b (t ++ v) = none → scanOrd b t = none := by
  intro t
  induction t with
  | nil => intro b _; rfl
  | cons c t' ih =>
    intro b h
    rw [List.cons_append] at h
    cases b with
    | true =>
      rw [show scanOrd true (c :: (t' ++ v)) = scanOrd (isWordChar c) (t' ++ v) from by
        simp [scanOrd]] at h
      rw [show scanOrd true (c :: t') = scanOrd (isWordChar c) t' from by simp [scanOrd]]
      exact ih _ h
    | false =>
      cases hm : ordMatchFrom (c :: (t' ++ v)) with
      | some m =>
        rw [show scanOrd false (c :: (t' ++ v)) = some m from by simp [scanOrd, hm]] at h
        exact absurd h (by simp)
      | none =>
        rw [show scanOrd false (c :: (t' ++ v)) = scanOrd (isWordChar c) (t' ++ v) from by
          simp [scanOrd, hm]] at h
        have ht' := ih _ h
        cases hm' : ordMatchFrom (c :: t') with
        | some m =>
          have : ordMatchFrom ((c :: t') ++ v) = some m := ordMatchFrom_append_ws hv hm'
          rw [List.cons_append] at this
          rw [this] at hm
          exact absurd hm (by simp)
        | none =>
          rw [show scanOrd false (c :: t') = scanOrd (isWordChar c) t' from by
            simp [scanOrd, hm']]
          exact ht'

theorem scanOrd_ws_prefix {w : List Char} (hw : ∀ c ∈ w, isPySpace c = true) :
    ∀ t : List Char, scanOrd false (w ++ t) = scanOrd false t := by
  induction w with
  | nil => intro t; rfl
  | cons c w' ih =>
    intro t
    have hflags := pyspace_flags (hw c (by simp))
    have hm : ordMatchFrom (c :: (w' ++ t)) = none := ordMatchFrom_not_o hflags.2.1 _
    rw [List.cons_append,
      show scanOrd false (c :: (w' ++ t)) = scanOrd (isWordChar c) (w' ++ t) from by
        simp [scanOrd, hm],
      hflags.1]
    exact ih (fun c hc => hw c (by simp [hc])) t

theorem stripChars_decomp (l : List Char) :
    ∃ w v, l = w ++ stripChars l ++ v
      ∧ (∀ c ∈ w, isPySpace c = true) ∧ (∀ c ∈ v, isPySpace c = true) := by
  refine ⟨l.takeWhile isPySpace,
    ((l.dropWhile isPySpace).reverse.takeWhile isPySpace).reverse, ?_, ?_, ?_⟩
  · conv_lhs => rw [← List.takeWhile_append_dropWhile (p := isPySpace) (l := l)]
    rw [List.append_assoc]
    congr 1
    conv_lhs => rw [← List.reverse_reverse (l.dropWhile isPySpace),
      ← List.takeWhile_append_dropWhile (p := isPySpace)
        (l := (l.dropWhile isPySpace).reverse)]
    rw [List.reverse_append]
    rfl
  · exact fun c hc => mem_takeWhile_sat hc
  · intro c hc
    rw [List.mem_reverse] at hc
    exact mem_takeWhile_sat hc

theorem scanOrd_strip_none {l : List Char} (h : scanOrd false l = none) :
    scanOrd false (stripChars l) = none := by
  obtain ⟨w, v, hd, hw, hv⟩ := stripChars_decomp l
  rw [hd, List.append_assoc, scanOrd_ws_prefix hw] at h
  exact scanOrd_append_ws hv _ _ h

/-- Case analysis on the router cascade: either the message lands in the
chitchat or date-query branch and all three slots are `none`, or the
returned `order_id` and `max_price` are exactly the slot block's values
and the `category` is the slot block's value except in the
catalogue-phrase product-search branches (cases B and C), where it is
deliberately `none`. -/
theorem detect_intent_slots (msg : String) :
    ((detect_intent msg).intent = "chitchat" ∨ (detect_intent msg).intent = "date_query")
        ∧ (detect_intent msg).order_id = none ∧ (detect_intent msg).category = none
        ∧ (detect_intent msg).max_price = none
      ∨ ¬((detect_intent msg).intent = "chitchat" ∨ (detect_intent msg).intent = "date_query")
        ∧ (detect_intent msg).order_id = (router_slots (pyStrip msg)).1
        ∧ (detect_intent msg).max_price = (router_slots (pyStrip msg)).2.2
        ∧ (detect_intent msg).category =
            (if lands_in_catalogue_branch msg then none
             else (router_slots (pyStrip msg)).2.1) := by
  unfold detect_intent
  cases h0 : is_troubleshooting_issue (pyLower (pyStrip msg)) with
  | true =>
    refine Or.inr ⟨(by decide : ¬("troubleshooting" = "chitchat" ∨ "troubleshooting" = "date_query")),
      rfl, rfl, ?_⟩
    rw [show lands_in_catalogue_branch msg = false from by
      simp [lands_in_catalogue_branch, h0]]
    rfl
  | false =>
  cases h1 : is_chitchat (pyLower (pyStrip msg)) with
  | true => exact Or.inl ⟨Or.inl rfl, rfl, rfl, rfl⟩
  | false =>
  cases h2 : is_date_query (pyLower (pyStrip msg)) with
  | true => exact Or.inl ⟨Or.inr rfl, rfl, rfl, rfl⟩
  | false =>
  cases h3 : is_order_status_query (pyLower (pyStrip msg)) (router_slots (pyStrip msg)).1 with
  | true =>
    refine Or.inr ⟨(by decide : ¬("order_status" = "chitchat" ∨ "order_status" = "date_query")),
      rfl, rfl, ?_⟩
    rw [show lands_in_catalogue_branch msg = false from by
      simp [lands_in_catalogue_branch, h3]]
    rfl
  | false =>
  cases h4 : is_policy_query (pyLower (pyStrip msg)) with
  | true =>
    refine Or.inr ⟨(by decide : ¬("policy_question" = "chitchat" ∨ "policy_question" = "date_query")),
      rfl, rfl, ?_⟩
    rw [show lands_in_catalogue_branch msg = false from by
      simp [lands_in_catalogue_branch, h4]]
    rfl
  | false =>
  cases h5 : is_refund_query (pyLower (pyStrip msg)) with
  | true =>
    refine Or.inr ⟨(by decide : ¬("refund" = "chitchat" ∨ "refund" = "date_query")),
      rfl, rfl, ?_⟩
    rw [show lands_in_catalogue_branch msg = false from by
      simp [lands_in_catalogue_branch, h5]]
    rfl
  | false =>
  cases h6 : is_return_query (pyLower (pyStrip msg)) with
  | true =>
    refine Or.inr ⟨(by decide : ¬("return_eligibility" = "chitchat" ∨ "return_eligibility" = "date_query")),
      rfl, rfl, ?_⟩
    rw [show lands_in_catalogue_branch msg = false from by
      simp [lands_in_catalogue_branch, h6]]
    rfl
  | false =>
  cases h7 : is_warranty_query (pyLower (pyStrip msg)) with
  | true =>
    refine Or.inr ⟨(by decide : ¬("warranty_status" = "chitchat" ∨ "warranty_status" = "date_query")),
      rfl, rfl, ?_⟩
    rw [show lands_in_catalogue_branch msg = false from by
      simp [lands_in_catalogue_branch, h7]]
    rfl
  | false =>
  cases h8 : has_category_and_search_verb (pyLower (pyStrip msg)) (router_slots (pyStrip msg)).2.1 with
  | true =>
    refine Or.inr ⟨(by decide : ¬("product_search" = "chitchat" ∨ "product_search" = "date_query")),
      rfl, rfl, ?_⟩
    rw [show lands_in_catalogue_branch msg = false from by
      simp [lands_in_catalogue_branch, h8]]
    rfl
  | false =>
  cases h9 : is_catalogue_query (pyLower (pyStrip msg)) with
  | true =>
    refine Or.inr ⟨(by decide : ¬("product_search" = "chitchat" ∨ "product_search" = "date_query")),
      rfl, rfl, ?_⟩
    rw [show lands_in_catalogue_branch msg = true from by
      simp [lands_in_catalogue_branch, h0, h1, h2, h3, h4, h5, h6, h7, h8, h9]]
    rfl
  | false =>
  cases h10 : is_sell_products_query (pyLower (pyStrip msg)) with
  | true =>
    refine Or.inr ⟨(by decide : ¬("product_search" = "chitchat" ∨ "product_search" = "date_query")),
      rfl, rfl, ?_⟩
    rw [show lands_in_catalogue_branch msg = true from by
      simp [lands_in_catalogue_branch, h0, h1, h2, h3, h4, h5, h6, h7, h8, h9, h10]]
    rfl
  | false =>
  refine Or.inr ⟨(by decide : ¬("general_rag" = "chitchat" ∨ "general_rag" = "date_query")),
    rfl, rfl, ?_⟩
  rw [show lands_in_catalogue_branch msg = false from by
    simp [lands_in_catalogue_branch, h9, h10]]
  rfl

/-- C9: for every input message containing no substring matching the
order-id pattern `\bORD\d+\b` (case-insensitive), the `RouterResult`
returned by `detect_intent` has `order_id = None`, whatever intent the
cascade assigns. -/
theorem C9_no_order_id (msg : String) (h : scanOrd false msg.data = none) :
    (detect_intent msg).order_id = none := by
  have hs : (router_slots (pyStrip msg)).1 = none := by
    show extract_order_id (pyStrip msg) = none
    unfold extract_order_id
    have hdata : (pyStrip msg).data = stripChars msg.data := rfl
    rw [hdata, scanOrd_strip_none h]
    rfl
  rcases detect_intent_slots msg with ⟨-, h1, -, -⟩ | ⟨-, h1, -, -⟩
  · exact h1
  · rw [h1, hs]

/-- Witness for C9 at the concrete message
`"please show my recent order status"`, which contains no order-id token. -/
theorem C9_witness :
    scanOrd false ("please show my recent order status").data = none
      ∧ (detect_intent "please show my recent order status").order_id = none :=
  ⟨by decide, C9_no_order_id "please show my recent order status" (by decide)⟩

/-- C3, counterexample: the message `"thanks ORD123"` is routed to
`chitchat` and `detect_intent` reports `order_id = None`, although the
standalone extractor finds `ORD123`; so slot extraction is not independent
of the intent cascade. -/
theorem C3_counterexample :
    detect_intent "thanks ORD123" =
        { intent := "chitchat", order_id := none, category := none, max_price := none }
      ∧ extract_order_id "thanks ORD123" = some "ORD123" := by
  constructor <;> decide

/-- C3, amended: on every branch except chitchat and date-query, the
`order_id` and `max_price` slots equal the standalone extractors applied to
the stripped message, and `category` equals the keyword table's value
except exactly in the catalogue-phrase product-search branches (cases B
and C, characterized by `lands_in_catalogue_branch`), where it is
deliberately `none`; the chitchat and date-query branches return all-`none`
slots. -/
theorem C3_slot_extraction (msg : String) :
    ((detect_intent msg).intent ≠ "chitchat" → (detect_intent msg).intent ≠ "date_query" →
      (detect_intent msg).order_id = extract_order_id (pyStrip msg)
        ∧ (detect_intent msg).max_price = extract_max_price (pyStrip msg)
        ∧ (detect_intent msg).category =
            (if lands_in_catalogue_branch msg then none
             else detect_category (pyStrip msg)))
    ∧ ((detect_intent msg).intent = "chitchat" ∨ (detect_intent msg).intent = "date_query" →
      (detect_intent msg).order_id = none ∧ (detect_intent msg).category = none
        ∧ (detect_intent msg).max_price = none) := by
  rcases detect_intent_slots msg with ⟨hm, h1, h2, h3⟩ | ⟨hm, h1, h2, h3⟩
  · refine ⟨fun hne1 hne2 => ?_, fun _ => ⟨h1, h2, h3⟩⟩
    rcases hm with hm | hm
    · exact absurd hm hne1
    · exact absurd hm hne2
  · exact ⟨fun _ _ => ⟨h1, h2, h3⟩, fun hc => absurd hc hm⟩

/-- Witness for C3 at the concrete troubleshooting message
`"my laptop is not working ORD44"` (outside the catalogue branches, so the
category equals the keyword table's value). -/
theorem C3_witness :
    (detect_intent "my laptop is not working ORD44").order_id
        = extract_order_id (pyStrip "my laptop is not working ORD44")
      ∧ (detect_intent "my laptop is not working ORD44").max_price
        = extract_max_price (pyStrip "my laptop is not working ORD44")
      ∧ (detect_intent "my laptop is not working ORD44").category
        = (if lands_in_catalogue_branch "my laptop is not working ORD44" then none
           else detect_category (pyStrip "my laptop is not working ORD44")) := by
  have h := (C3_slot_extraction "my laptop is not working ORD44").1
    (by decide) (by decide)
  exact ⟨h.1, h.2.1, h.2.2⟩

/-- C4, counterexample: the troubleshooting tool's product-type
normalization maps `"phone"` to `"laptop"`, not to `"phone"`. -/
theorem C4_counterexample :
    normalize_product_type "phone" = "laptop"
      ∧ normalize_product_type "phone" ≠ "phone" := by
  constructor <;> decide

/-- C4, amended: normalization maps every product-type string into the set
`{laptop, headphones}` — there is no `phone` bucket, and an input naming a
phone falls through to the default — and both `"device"` and `"phone"`
default to `laptop`. -/
theorem C4_normalize_product_type :
    (∀ s : String,
      normalize_product_type s = "laptop" ∨ normalize_product_type s = "headphones")
      ∧ normalize_product_type "device" = "laptop"
      ∧ normalize_product_type "phone" = "laptop" := by
  refine ⟨fun s => ?_, by decide, by decide⟩
  unfold normalize_product_type
  cases h0 : strContains (pyLower s) "laptop" with
  | true => exact Or.inl rfl
  | false =>
  cases h1 : (strContains (pyLower s) "headphone" || strContains (pyLower s) "headset") with
  | true => exact Or.inr rfl
  | false => exact Or.inl rfl

/-- C5: any message whose normalized (stripped, lowercased) text contains a
safety-blocklist term is blocked with reason `safety` and the
distress-resources message, whatever else the message contains — the
safety rule precedes the inappropriate-content and domain-relevance
rules. -/
theorem C5_safety_precedence (msg : String)
    (h : containsAny (pyLower (pyStrip msg)) BLOCKED_KEYWORDS = true) :
    apply_guardrails msg =
      { allowed := false, message := some SAFETY_MESSAGE, reason := some "safety" } := by
  have hne : ¬(pyLower (pyStrip msg) = "") := by
    intro he
    rw [he] at h
    exact absurd h (by decide)
  unfold apply_guardrails
  rw [if_neg hne, if_pos h]

/-- Witness for C5: the message `"I need a gun to fix my laptop"` contains
the blocklist term `gun` (and domain keywords), and is blocked with reason
`safety`. -/
theorem C5_witness :
    containsAny (pyLower (pyStrip "I need a gun to fix my laptop")) BLOCKED_KEYWORDS = true
      ∧ apply_guardrails "I need a gun to fix my laptop" =
        { allowed := false, message := some SAFETY_MESSAGE, reason := some "safety" } :=
  ⟨by decide, C5_safety_precedence "I need a gun to fix my laptop" (by decide)⟩

/-- C7: for every order store and every parseable `today`,
`check_refund_possibility` reports `refundable = true` exactly when
`check_return_eligibility` on the same `(order_id, today)` reports
`found = true` and `eligible = true`; when refundable, the expected refund
timeline names `today + 7` days, and when the order is not return-eligible
the timeline is absent. -/
theorem C7_refund_iff_return_eligible (orders : List Order) (products : List Product)
    (order_id today : String) (td : Nat) (htd : parseDateStr today = some td) :
    ((check_refund_possibility orders products order_id today).refundable = true
      ↔ (check_return_eligibility orders products order_id today).found = true
        ∧ (check_return_eligibility orders products order_id today).eligible = true)
    ∧ ((check_refund_possibility orders products order_id today).refundable = true →
      (check_refund_possibility orders products order_id today).expected_refund_timeline
        = some ((td : Int) + 7))
    ∧ ((check_return_eligibility orders products order_id today).eligible = false →
      (check_refund_possibility orders products order_id today).expected_refund_timeline
        = none) := by
  unfold check_refund_possibility
  cases hf : (check_return_eligibility orders products order_id today).found with
  | false => simp
  | true =>
    cases he : (check_return_eligibility orders products order_id today).eligible with
    | false => simp
    | true => simp [htd]

/-- Witness for C7 at the empty order store with `today = "2025-12-05"`. -/
theorem C7_witness :
    parseDateStr "2025-12-05" = some (toOrdinal 2025 12 5)
      ∧ ((check_refund_possibility [] [] "ORD1" "2025-12-05").refundable = true
        ↔ (check_return_eligibility [] [] "ORD1" "2025-12-05").found = true
          ∧ (check_return_eligibility [] [] "ORD1" "2025-12-05").eligible = true) :=
  ⟨rfl, (C7_refund_iff_return_eligible [] [] "ORD1" "2025-12-05" (toOrdinal 2025 12 5) rfl).1⟩

/-- C10: an order whose stored `delivery_date` parses to a date strictly
later than `today` (a shipped order carrying an estimated delivery date) is
reported found and return-eligible, with a negative `days_since_delivery`;
the not-yet-delivered rejection fires only when the `delivery_date` field
is absent or unparseable. -/
theorem C10_future_delivery_eligible (orders : List Order) (products : List Product)
    (oid today : String) (order : Order) (td dd : Nat)
    (hfind : find_order orders oid = some order)
    (hdd : parseDateOpt order.delivery_date = some dd)
    (htd : parseDateStr today = some td)
    (hlt : td < dd) :
    (check_return_eligibility orders products oid today).found = true
      ∧ (check_return_eligibility orders products oid today).eligible = true
      ∧ (check_return_eligibility orders products oid today).days_since_delivery
        = some ((td : Int) - (dd : Int))
      ∧ ((td : Int) - (dd : Int)) < 0 := by
  have hneg : ((td : Int) - (dd : Int)) < 0 := by omega
  have hle : ((td : Int) - (dd : Int)) ≤ 7 := by omega
  unfold check_return_eligibility
  rw [hfind]
  simp only [hdd, htd, ite_self]
  rw [if_pos hle]
  exact ⟨rfl, rfl, rfl, hneg⟩

/-- Witness for C10: the shipped order `ORD9` stores the future estimated
delivery date `2025-12-10`; with `today = "2025-12-05"` it is
return-eligible with `days_since_delivery = -5`. -/
theorem C10_witness :
    (check_return_eligibility [order9] [] "ORD9" "2025-12-05").found = true
      ∧ (check_return_eligibility [order9] [] "ORD9" "2025-12-05").eligible = true
      ∧ (check_return_eligibility [order9] [] "ORD9" "2025-12-05").days_since_delivery
        = some ((toOrdinal 2025 12 5 : Int) - (toOrdinal 2025 12 10 : Int))
      ∧ ((toOrdinal 2025 12 5 : Int) - (toOrdinal 2025 12 10 : Int)) < 0 :=
  C10_future_delivery_eligible [order9] [] "ORD9" "2025-12-05" order9
    (toOrdinal 2025 12 5) (toOrdinal 2025 12 10) (by decide) (by decide) (by decide)
    (by decide)

/-- C1: the `/chat` endpoint of app.py performs no caching at all — on
every path (guardrail block or orchestrator run), for every message and
session, the response is built with `from_cache := false`, and no cache is
consulted or filled; so a second identical request re-runs the pipeline
and never carries `from_cache = true`. -/
theorem C1_never_from_cache (orchestrate : String → OrchResult)
    (user_message session_id : String) :
    (chat_endpoint orchestrate user_message session_id).from_cache = false := by
  unfold chat_endpoint
  cases h : (apply_guardrails user_message).allowed <;> rfl

/-- C2, counterexample: the message `"Where is my order ORD1002?"` routes
to the private intent `order_status` with the order id extracted, yet with
no user identity the orchestrator returns the auth prompt with zero
iterations and no tool calls — the order is not resolved by tool
dispatch. -/
theorem C2_counterexample :
    (detect_intent "Where is my order ORD1002?").intent = "order_status"
      ∧ (detect_intent "Where is my order ORD1002?").order_id = some "ORD1002"
      ∧ handle_user_message_agentic env0 modelSilent (some "key")
          "Where is my order ORD1002?" none "2025-12-05"
        = { intent := "order_status", answer := AUTH_PROMPT_ANSWER,
            route := "auth:user_id_required", tool_calls := [], iterations := 0,
            router_info := detect_intent "Where is my order ORD1002?" } := by
  refine ⟨by decide, by decide, by decide⟩

/-- C2, amended: the auth short-circuit applies to every private intent
whenever no user identity is set, regardless of whether the message
supplies an explicit order id — the orchestrator returns the auth prompt
(route `auth:user_id_required`, zero iterations, no tool calls) without
dispatching any tool. -/
theorem C2_auth_gate (env : Env) (model : Nat → ModelResponse)
    (apiKey : Option String) (msg today : String)
    (hp : (detect_intent msg).intent ∈ PRIVATE_INTENTS) :
    handle_user_message_agentic env model apiKey msg none today
      = { intent := (detect_intent msg).intent, answer := AUTH_PROMPT_ANSWER,
          route := "auth:user_id_required", tool_calls := [], iterations := 0,
          router_info := detect_intent msg } := by
  have h1 : ¬((detect_intent msg).intent = "chitchat") := by
    intro he
    rw [he] at hp
    revert hp
    decide
  have h2 : ¬((detect_intent msg).intent = "date_query") := by
    intro he
    rw [he] at hp
    revert hp
    decide
  unfold handle_user_message_agentic
  rw [if_neg h1, if_neg h2, if_pos ⟨hp, rfl⟩]

/-- Witness for C2 at the scenario message, an empty environment and a
silent model stub. -/
theorem C2_witness :
    (detect_intent "Where is my order ORD1002?").intent ∈ PRIVATE_INTENTS
      ∧ handle_user_message_agentic env0 modelSilent (some "key")
          "Where is my order ORD1002?" none "2025-12-05"
        = { intent := (detect_intent "Where is my order ORD1002?").intent,
            answer := AUTH_PROMPT_ANSWER, route := "auth:user_id_required",
            tool_calls := [], iterations := 0,
            router_info := detect_intent "Where is my order ORD1002?" } :=
  ⟨by decide, C2_auth_gate env0 modelSilent (some "key")
    "Where is my order ORD1002?" "2025-12-05" (by decide)⟩

/-- C8: a tool name outside the dispatch table (and distinct from the
special RAG policy-search tool) makes `execute_tool_call` return the
structured `{error: "Unknown tool: ..."}` result — `execute_tool_call` is a
total function, so no exception is raised — and the agentic loop treats it
as an ordinary tool result: the turn is logged and the loop continues with
the next iteration instead of terminating. -/
theorem C8_unknown_tool (env : Env) (name : String) (args : ToolArgs) (today : String)
    (h1 : name ∉ TOOL_MAP_NAMES) (h2 : name ≠ "search_policy_docs") :
    execute_tool_call env name args today = .err ("Unknown tool: " ++ name)
      ∧ dictError (execute_tool_call env name args today)
        = some ("Unknown tool: " ++ name)
      ∧ ∀ (model : Nat → ModelResponse) (fuel k : Nat) (log : List ToolCallRecord)
          (last : Option DispatchResult), model k = .toolCall name args →
          runLoop env model today (fuel + 1) k log last
            = runLoop env model today fuel (k + 1)
                (log ++ [{ tool := name, args := args }])
                (some (DispatchResult.err ("Unknown tool: " ++ name))) := by
  have he : execute_tool_call env name args today = .err ("Unknown tool: " ++ name) := by
    unfold execute_tool_call
    rw [if_neg h2,
      if_neg (fun hx => h1 (by rw [hx]; decide)),
      if_neg (fun hx => h1 (by rw [hx]; decide)),
      if_neg (fun hx => h1 (by rw [hx]; decide)),
      if_neg (fun hx => h1 (by rw [hx]; decide)),
      if_neg (fun hx => h1 (by rw [hx]; decide)),
      if_neg (fun hx => h1 (by rw [hx]; decide)),
      if_neg (fun hx => h1 (by rw [hx]; decide))]
  refine ⟨he, by rw [he]; rfl, ?_⟩
  intro model fuel k log last hm
  simp only [runLoop, hm, he]

/-- Witness for C8: the unknown tool `"frobnicate"` yields the structured
error result, and one loop step on it continues into the next iteration. -/
theorem C8_witness :
    execute_tool_call env0 "frobnicate" noArgs "2025-12-05"
        = .err ("Unknown tool: " ++ "frobnicate")
      ∧ runLoop env0 modelUnknownThenDone "2025-12-05" 3 0 [] none
        = runLoop env0 modelUnknownThenDone "2025-12-05" 2 1
            [{ tool := "frobnicate", args := noArgs }]
            (some (DispatchResult.err ("Unknown tool: " ++ "frobnicate"))) := by
  have h := C8_unknown_tool env0 "frobnicate" noArgs "2025-12-05" (by decide) (by decide)
  refine ⟨h.1, ?_⟩
  have h3 := h.2.2 modelUnknownThenDone 2 0 [] none rfl
  simpa using h3

/-- One iteration of the loop on a tool-call reply: log the record, feed
the tool result back, continue. -/
theorem runLoop_step (env : Env) (model : Nat → ModelResponse) (today : String)
    (fuel k : Nat) (log : List ToolCallRecord) (last : Option DispatchResult)
    (name : String) (args : ToolArgs) (h : model k = .toolCall name args) :
    runLoop env model today (fuel + 1) k log last
      = runLoop env model today fuel (k + 1) (log ++ [{ tool := name, args := args }])
          (some (execute_tool_call env name args today)) := by
  simp only [runLoop, h]

/-- When the model requests a tool call on every turn, the bounded loop
consumes all its fuel, logging one `ToolCallRecord` per iteration and
keeping the last tool result. -/
theorem runLoop_all_tools (env : Env) (model : Nat → ModelResponse) (today : String)
    (nm : Nat → String) (ag : Nat → ToolArgs)
    (hm : ∀ j, model j = .toolCall (nm j) (ag j)) :
    ∀ (n k : Nat) (log : List ToolCallRecord) (last : Option DispatchResult),
      runLoop env model today (n + 1) k log last
        = .noAnswer
            (log ++ (List.range (n + 1)).map
              (fun i => { tool := nm (k + i), args := ag (k + i) }))
            (some (execute_tool_call env (nm (k + n)) (ag (k + n)) today)) := by
  intro n
  induction n with
  | zero =>
    intro k log last
    rw [runLoop_step env model today 0 k log last (nm k) (ag k) (hm k)]
    simp [runLoop, List.range_succ]
  | succ n ih =>
    intro k log last
    rw [runLoop_step env model today (n + 1) k log last (nm k) (ag k) (hm k),
      ih (k + 1)]
    have harg :
        (fun i => ({ tool := nm (k + 1 + i), args := ag (k + 1 + i) } : ToolCallRecord))
          = (fun i => ({ tool := nm (k + (i + 1)), args := ag (k + (i + 1)) } : ToolCallRecord)) := by
      funext i
      rw [show k + 1 + i = k + (i + 1) from by omega]
    rw [harg, show k + 1 + n = k + (n + 1) from by omega, List.append_assoc]
    congr 1
    conv_rhs => rw [List.range_succ_eq_map]
    rw [List.map_cons, List.map_map, List.singleton_append]
    rfl

/-- C6: when the reasoning model requests a tool call on every turn, the
agentic loop performs exactly the configured cap of 10 turns, terminates
in the max-iterations state (`route = gemini:max_iterations_with_tools`,
`iterations = 10`), reports the full 10-entry tool-call log, and answers
with the last tool result's `message` field when the underlying dict has
one, else with the canned degraded-route message; the answer is nonempty
whenever tool results never carry an empty `message`. -/
theorem C6_iteration_cap (env : Env) (model : Nat → ModelResponse) (key : String)
    (msg : String) (uid : Option String) (today : String)
    (nm : Nat → String) (ag : Nat → ToolArgs)
    (hm : ∀ j, model j = .toolCall (nm j) (ag j))
    (h1 : (detect_intent msg).intent ≠ "chitchat")
    (h2 : (detect_intent msg).intent ≠ "date_query")
    (h3 : ¬((detect_intent msg).intent ∈ PRIVATE_INTENTS ∧ uid = none))
    (hne : ∀ j, dictMessage (execute_tool_call env (nm j) (ag j) today) ≠ some "") :
    (handle_user_message_agentic env model (some key) msg uid today).route
        = "gemini:max_iterations_with_tools"
      ∧ (handle_user_message_agentic env model (some key) msg uid today).iterations = 10
      ∧ (handle_user_message_agentic env model (some key) msg uid today).tool_calls
        = (List.range 10).map (fun i => { tool := nm i, args := ag i })
      ∧ (handle_user_message_agentic env model (some key) msg uid today).answer
        = (match dictMessage (execute_tool_call env (nm 9) (ag 9) today) with
           | some m => m
           | none => MAX_ITER_FALLBACK_ANSWER)
      ∧ (handle_user_message_agentic env model (some key) msg uid today).answer ≠ "" := by
  unfold handle_user_message_agentic
  rw [if_neg h1, if_neg h2, if_neg h3, if_neg (fun hx => Option.noConfusion hx),
    show (10 : Nat) = 9 + 1 from rfl, runLoop_all_tools env model today nm ag hm 9 0 [] none]
  refine ⟨rfl, rfl, ?_, rfl, ?_⟩
  · rfl
  · show (match dictMessage (execute_tool_call env (nm 9) (ag 9) today) with
      | some m => m
      | none => MAX_ITER_FALLBACK_ANSWER) ≠ ""
    cases hd : dictMessage (execute_tool_call env (nm 9) (ag 9) today) with
    | some m =>
      have := hne 9
      rw [hd] at this
      simp only [ne_eq, Option.some.injEq] at this
      simpa using this
    | none => decide

/-- Witness for C6: a stub that always requests `get_order_status` on an
empty store, driven on a public-intent message with no identity. -/
theorem C6_witness :
    (handle_user_message_agentic env0 modelAlwaysTool (some "key")
        "suggest laptops under 60000" none "2025-12-05").route
      = "gemini:max_iterations_with_tools"
    ∧ (handle_user_message_agentic env0 modelAlwaysTool (some "key")
        "suggest laptops under 60000" none "2025-12-05").iterations = 10
    ∧ (handle_user_message_agentic env0 modelAlwaysTool (some "key")
        "suggest laptops under 60000" none "2025-12-05").answer ≠ "" := by
  have h := C6_iteration_cap env0 modelAlwaysTool "key" "suggest laptops under 60000"
    none "2025-12-05" (fun _ => "get_order_status") (fun _ => argsOrd1)
    (fun _ => rfl) (by decide) (by decide) (by decide)
    (fun _ => (by decide :
      dictMessage (execute_tool_call env0 "get_order_status" argsOrd1 "2025-12-05")
        ≠ some ""))
  exact ⟨h.1, h.2.1, h.2.2.2.2⟩

end Ecom
